import Mathlib

/-!
Shallow embedding of `src/activity-element.js` (the `ActivityElement` custom
element): JavaScript values as needed by the lifecycle logic, the per-instance
state machine (`_state`, `_onCancelHandlers`, the deferred `result` promise and
its settlement closures `_resolve` / `_reject` / `_cancelResolve`), the
terminal triggers `finish` / `fail` / `cancel`, handler registration via
`onCancel`, teardown, the intent registry (`registerIntent` / `intentStart`),
and the launch pipeline (`_launch`, `_executeInClosure`).

Side effects that matter to the claims under study (cancel-handler
invocations, the `onDestroy` best-effort call, promise settlement) are made
observable through an event log carried by the instance state, in the order
the source performs them.
-/

/-- JavaScript values, as far as the lifecycle logic inspects them: the code
distinguishes `Error` instances (`error instanceof Error`), converts values to
strings (`String(error)`, template literals), and tests truthiness
(`!remoteSrc`, `reason || cancelled`). -/
inductive JSValue where
  | vUndefined : JSValue
  | vNull : JSValue
  | vBool : Bool → JSValue
  | vNum : Int → JSValue
  | vStr : String → JSValue
  | vError : String → JSValue
deriving DecidableEq, Repr

/-- JavaScript truthiness of a `JSValue` (`undefined`, `null`, `false`, `0`
and `""` are falsy; `Error` objects are truthy). -/
def truthy : JSValue → Bool
  | .vUndefined => false
  | .vNull => false
  | .vBool b => b
  | .vNum n => n != 0
  | .vStr s => s != ""
  | .vError _ => true

/-- JavaScript string conversion `String(v)` as used by
`new Error(String(error))` and template literals. -/
def jsString : JSValue → String
  | .vUndefined => "undefined"
  | .vNull => "null"
  | .vBool b => if b then "true" else "false"
  | .vNum n => toString n
  | .vStr s => s
  | .vError m => "Error: " ++ m

/-- The test `error instanceof Error`. -/
def instanceofError : JSValue → Bool
  | .vError _ => true
  | _ => false

/-- The normalization in `_reject`:
`error instanceof Error ? error : new Error(String(error))`. -/
def normalizeError (e : JSValue) : JSValue :=
  if instanceofError e then e else .vError (jsString e)

/-- The four values of `this._state`:
`pending | completed | cancelled | failed`. -/
inductive AState where
  | pending : AState
  | completed : AState
  | cancelled : AState
  | failed : AState
deriving DecidableEq, Repr

/-- A cancel handler registered through `activity.onCancel`.  Handlers are
opaque callables; the lifecycle logic only calls them, so a handler is modelled
by an identity (so distinct handlers and their invocations can be told apart)
and by whether calling it throws.  Handlers do not re-enter the activity
API; the claims under study do not concern re-entrant handlers. -/
structure Handler where
  hid : Nat
  throws : Bool
deriving DecidableEq, Repr

/-- The plain result objects built by the settlement closures:
`(status completed, value)`, `(status cancelled, reason)`,
`(status failed, error)`. -/
inductive ResultValue where
  | completedR : JSValue → ResultValue
  | cancelledR : JSValue → ResultValue
  | failedR : JSValue → ResultValue
deriving DecidableEq, Repr

/-- How the deferred `result` promise was settled: through the resolve
function of the promise or through its reject function. -/
inductive Settlement where
  | resolved : ResultValue → Settlement
  | rejected : ResultValue → Settlement
deriving DecidableEq, Repr

/-- Observable events, in the order the source performs them: a cancel
handler invocation `fn(reason)`, the best-effort `onDestroy` call, and the
settlement of the `result` promise (external observers of the promise run
after the synchronous settlement code, so an event logged before `settledEv`
happens before the future is observed externally). -/
inductive Event where
  | handlerRun : Nat → JSValue → Event
  | destroyRun : Event
  | settledEv : Settlement → Event
deriving DecidableEq, Repr

/-- One step the `onCreate` hook of a module may take against the capability
object: call `finish` / `fail` / `cancel`, register a cancel handler, or throw
(a throw aborts the rest of the hook and propagates to the caller). -/
inductive HookAction where
  | actFinish : JSValue → HookAction
  | actFail : JSValue → HookAction
  | actCancel : JSValue → HookAction
  | actOnCancel : Handler → HookAction
  | actThrow : JSValue → HookAction
deriving DecidableEq, Repr

/-- The export table populated by the scripts of the activity (`this._exports`):
whether it defines `onCreate` (and what that hook does), and whether it
defines `onDestroy` (and whether calling it throws — `_safeCall` discards
such an exception). -/
structure Exports where
  onCreate : Option (List HookAction)
  hasOnDestroy : Bool
  onDestroyThrows : Bool
deriving DecidableEq, Repr

/-- The empty export table `{}` (returned on compilation failure). -/
def Exports.empty : Exports := ⟨none, false, false⟩

/-- Argument passed to `activity.onCancel`: a callable or a non-callable
value (`typeof fn === function` fails on the latter). -/
inductive CallbackArg where
  | cb : Handler → CallbackArg
  | notCb : JSValue → CallbackArg
deriving DecidableEq, Repr

/-- The mutable state of one `ActivityElement` instance:
`this._state`, `this._onCancelHandlers`, `this._exports` (absent until
`_launch` assigns it), the settlement of `this.result` (none while the
deferred promise is pending), `this._activity.params`, whether the element is
attached to a parent node, and the event log. -/
structure ActivityInstance where
  state : AState
  onCancelHandlers : List Handler
  exports : Option Exports
  result : Option Settlement
  params : JSValue
  attached : Bool
  log : List Event
deriving DecidableEq, Repr

/-- The state established by the constructor: `pending`, no handlers, no
exports, the deferred `result` promise unsettled, `params` initialised to
`""`. -/
def ActivityInstance.init : ActivityInstance :=
  ⟨.pending, [], none, none, .vStr "", false, []⟩

namespace ActivityElement

/-- The events produced by
`this._safeCall(() => this._exports?.onDestroy?.(this._activity))`: one
`onDestroy` run when the export table exists and defines the hook, nothing
otherwise.  An exception thrown by `onDestroy` is swallowed by `_safeCall`,
so it contributes nothing beyond the run itself. -/
def destroyEvents : Option Exports → List Event
  | some ex => if ex.hasOnDestroy then [.destroyRun] else []
  | none => []

/-- Model of `_teardown`: detach from the parent node if attached, clear
`_onCancelHandlers`. -/
def teardown (inst : ActivityInstance) : ActivityInstance :=
  { inst with attached := false, onCancelHandlers := [] }

/-- The closure `_resolve` built in the constructor: no-op unless `_state`
is `pending`; otherwise set `_state = completed`, best-effort
`onDestroy`, resolve the deferred promise with
`(status completed, value)`, then `_teardown`. -/
def resolveClosure (inst : ActivityInstance) (value : JSValue) : ActivityInstance :=
  if inst.state ≠ .pending then inst
  else
    let i := { inst with state := .completed }
    let i := { i with log := i.log ++ destroyEvents i.exports }
    let i := { i with result := some (.resolved (.completedR value)),
                      log := i.log ++ [.settledEv (.resolved (.completedR value))] }
    teardown i

/-- The closure `_reject` built in the constructor: no-op unless pending;
otherwise set `_state = failed`, best-effort `onDestroy`, reject the
deferred promise with `(status failed, error)` where a non-`Error` input is
normalized via `new Error(String(error))`, then `_teardown`. -/
def rejectClosure (inst : ActivityInstance) (error : JSValue) : ActivityInstance :=
  if inst.state ≠ .pending then inst
  else
    let i := { inst with state := .failed }
    let i := { i with log := i.log ++ destroyEvents i.exports }
    let i := { i with result := some (.rejected (.failedR (normalizeError error))),
                      log := i.log ++ [.settledEv (.rejected (.failedR (normalizeError error)))] }
    teardown i

/-- The closure `_cancelResolve` built in the constructor: no-op unless
pending; otherwise set `_state = cancelled`, best-effort `onDestroy`,
resolve (not reject) the deferred promise with `(status cancelled, reason)`,
then `_teardown`. -/
def cancelResolve (inst : ActivityInstance) (reason : JSValue) : ActivityInstance :=
  if inst.state ≠ .pending then inst
  else
    let i := { inst with state := .cancelled }
    let i := { i with log := i.log ++ destroyEvents i.exports }
    let i := { i with result := some (.resolved (.cancelledR reason)),
                      log := i.log ++ [.settledEv (.resolved (.cancelledR reason))] }
    teardown i

/-- Model of `finish(value)`: delegates to `_resolve`. -/
def finish (inst : ActivityInstance) (value : JSValue) : ActivityInstance :=
  resolveClosure inst value

/-- Model of `fail(error)`: delegates to `_reject`. -/
def fail (inst : ActivityInstance) (error : JSValue) : ActivityInstance :=
  rejectClosure inst error

/-- The handler invocations performed by
`try { this._onCancelHandlers.forEach((fn) => fn(reason)); } catch {}`:
handlers run in list order; the single `try` wraps the whole loop, so the
first handler that throws aborts the remaining iterations (the exception
itself is swallowed). -/
def runHandlersUntilThrow : List Handler → JSValue → List Event
  | [], _ => []
  | h :: rest, r =>
      .handlerRun h.hid r :: (if h.throws then [] else runHandlersUntilThrow rest r)

/-- Model of `cancel(reason)`: run the registered handlers (in one `try`, see
`runHandlersUntilThrow`) — note this happens regardless of `_state` — then
`_cancelResolve(reason || cancelled)`. -/
def cancel (inst : ActivityInstance) (reason : JSValue) : ActivityInstance :=
  let i := { inst with log := inst.log ++ runHandlersUntilThrow inst.onCancelHandlers reason }
  cancelResolve i (if truthy reason then reason else .vStr "cancelled")

/-- Model of `this._activity.onCancel`: push the argument onto `_onCancelHandlers`
when it is a function, ignore it otherwise.  The source performs no state
check here. -/
def onCancel (inst : ActivityInstance) (arg : CallbackArg) : ActivityInstance :=
  match arg with
  | .cb h => { inst with onCancelHandlers := inst.onCancelHandlers ++ [h] }
  | .notCb _ => inst

/-- One external call on the public surface of an instance: the three terminal
triggers and cancel-handler registration. -/
inductive Op where
  | opFinish : JSValue → Op
  | opFail : JSValue → Op
  | opCancel : JSValue → Op
  | opOnCancel : CallbackArg → Op
deriving DecidableEq, Repr

/-- Apply one call. -/
def step (inst : ActivityInstance) : Op → ActivityInstance
  | .opFinish v => finish inst v
  | .opFail e => fail inst e
  | .opCancel r => cancel inst r
  | .opOnCancel a => onCancel inst a

/-- Apply a sequence of calls, first to last. -/
def runOps (inst : ActivityInstance) : List Op → ActivityInstance
  | [] => inst
  | op :: rest => runOps (step inst op) rest

/-- Run the actions of an `onCreate` hook in order against the instance.
Returns the instance after the actions that ran, together with the exception
if one of the actions threw (aborting the rest). -/
def runHookActions : List HookAction → ActivityInstance → ActivityInstance × Option JSValue
  | [], i => (i, none)
  | a :: rest, i =>
      match a with
      | .actThrow e => (i, some e)
      | .actFinish v => runHookActions rest (finish i v)
      | .actFail e => runHookActions rest (fail i e)
      | .actCancel r => runHookActions rest (cancel i r)
      | .actOnCancel h => runHookActions rest (onCancel i (.cb h))

/-- What the concatenated `<script>` text of a fetched activity does when
handed to `_executeInClosure`: fail to compile (`new Function` throws a
syntax error), throw synchronously at top level after having populated part
of the export table (caught by the inner `try` of the generated code), or run to
completion leaving an export table. -/
inductive ScriptBehavior where
  | sbCompileError : JSValue → ScriptBehavior
  | sbRuntimeThrow : Exports → JSValue → ScriptBehavior
  | sbOk : Exports → ScriptBehavior
deriving DecidableEq, Repr

/-- Model of `_executeInClosure(scriptContent)`: on a compilation error the outer
`catch` calls `this.fail(error)` and returns `{}`; a synchronous top-level
throw is caught by the inner `try` in the generated code, which calls
`activity.fail(error)`, and the export table populated so far is still
returned; otherwise the populated export table is returned.  In every case
the call returns normally — no exception escapes. -/
def executeInClosure (inst : ActivityInstance) (sb : ScriptBehavior) :
    Exports × ActivityInstance :=
  match sb with
  | .sbCompileError e => (Exports.empty, fail inst e)
  | .sbRuntimeThrow ex e => (ex, fail inst e)
  | .sbOk ex => (ex, inst)

/-- Outcome of one `fetch(remoteSrc)` as `_launch` discriminates it: the
response body (whose scripts behave as recorded), a response with
`!response.ok` (status and status text feed the thrown error message), or a
rejected fetch promise. -/
inductive FetchOutcome where
  | fetchOk : ScriptBehavior → FetchOutcome
  | fetchHttpError : Nat → String → FetchOutcome
  | fetchNetworkError : JSValue → FetchOutcome
deriving DecidableEq, Repr

/-- The value the promise returned by `_launch` resolves with: the control
object `(element, result, cancel, state)` built at the end of the `then`
chain, or `undefined` when the `catch` handler ran (its body
`this.fail(error)` returns `undefined`).  The `catch` terminates the chain,
so the returned promise never rejects. -/
inductive LaunchOutcome where
  | handle : LaunchOutcome
  | undefinedVal : LaunchOutcome
deriving DecidableEq, Repr

/-- The tail of the `then` chain of `_launch` once the export table has been
stored: invoke `onCreate` when it is a function, then build the control
object.  An exception thrown by `onCreate` propagates to the final `catch`,
which calls `this.fail(error)` and leaves the launch promise resolving with
`undefined`. -/
def launchAfterExports (i : ActivityInstance) (ex : Exports) :
    LaunchOutcome × ActivityInstance :=
  match ex.onCreate with
  | none => (.handle, i)
  | some acts =>
      match runHookActions acts i with
      | (i2, none) => (.handle, i2)
      | (i2, some e) => (.undefinedVal, fail i2 e)

/-- Model of `_launch(remoteSrc, params, options)`.  Synchronously throws
`Activity already launched or finished` when `_state` is not `pending`
(the `Except.error` case).  Otherwise stores `params` on the capability
object and runs the fetch/execute/onCreate chain; every asynchronous error
(non-ok response, rejected fetch, an `onCreate` that throws) lands in the
final `catch`, which calls `this.fail(error)` and makes the launch promise
resolve with `undefined`. -/
def launch (inst : ActivityInstance) (remoteSrc : String) (params : JSValue)
    (fo : FetchOutcome) : Except String (LaunchOutcome × ActivityInstance) :=
  if inst.state ≠ .pending then .error "Activity already launched or finished"
  else
    let inst := { inst with params := params }
    match fo with
    | .fetchHttpError status statusText =>
        .ok (.undefinedVal,
          fail inst (.vError ("Fetch: " ++ remoteSrc ++ ": " ++ toString status
            ++ " " ++ statusText)))
    | .fetchNetworkError e =>
        .ok (.undefinedVal, fail inst e)
    | .fetchOk sb =>
        let p := executeInClosure inst sb
        .ok (launchAfterExports { p.2 with exports := some p.1 } p.1)

end ActivityElement

/-- The intent registry `ActivityElement._intentRegistry`, modelled by the
two `Map` operations the source uses: `set` (function update) and `get`
(which yields `undefined` for an absent key). -/
def Registry : Type := String → JSValue

/-- The registry before any registration: every lookup misses. -/
def Registry.empty : Registry := fun _ => .vUndefined

/-- Model of `registerIntent(intentName, remoteSrc)`:
`ActivityElement._intentRegistry.set(intentName, remoteSrc)`. -/
def registerIntent (reg : Registry) (intentName : String) (remoteSrc : JSValue) : Registry :=
  fun n => if n = intentName then remoteSrc else reg n

/-- Model of `ActivityElement._intentRegistry.get(intentName)`. -/
def registryGet (reg : Registry) (intentName : String) : JSValue :=
  reg intentName

/-- The synchronous guard at the head of `intentStart`:
`const remoteSrc = registry.get(intentName); if (!remoteSrc) throw ...`.
Any falsy stored locator — including the `undefined` of a missing key and
the empty string — triggers the `No activity registered` error. -/
def intentStartGuard (reg : Registry) (intentName : String) : Except String JSValue :=
  let remoteSrc := registryGet reg intentName
  if truthy remoteSrc then .ok remoteSrc
  else .error ("No activity registered for intent: " ++ intentName)

/-- Model of `intentStart(intentName, params, options)`: the registry guard, then a
fresh element appended to the container (hence `attached`), then `_launch`. -/
def intentStart (reg : Registry) (intentName : String) (params : JSValue)
    (fo : ActivityElement.FetchOutcome) :
    Except String (ActivityElement.LaunchOutcome × ActivityInstance) :=
  match intentStartGuard reg intentName with
  | .error e => .error e
  | .ok remoteSrc =>
      ActivityElement.launch { ActivityInstance.init with attached := true }
        (jsString remoteSrc) params fo

/-- Local version of `Except.isOk`: whether a computation finished without a
synchronous throw. -/
def exceptIsOk {ε α : Type} : Except ε α → Bool
  | .ok _ => true
  | .error _ => false

/-- Number of `onDestroy` invocations recorded in a log. -/
def countDestroy (l : List Event) : Nat :=
  (l.filter fun ev => ev = Event.destroyRun).length

/-- Launch a fresh instance once (the fetch succeeds, the script of the activity
exports nothing, so the instance is still `pending` when the control object
comes back), then call `_launch` again on the same instance; report whether
the second call went through without a synchronous error. -/
def relaunchProbe : Bool :=
  match ActivityElement.launch ActivityInstance.init "u" (.vStr "p")
      (.fetchOk (.sbOk Exports.empty)) with
  | .ok (_, i) =>
      exceptIsOk (ActivityElement.launch i "u" (.vStr "p")
        (.fetchOk (.sbOk Exports.empty)))
  | .error _ => false

namespace ActivityElement

theorem step_of_terminal (inst : ActivityInstance) (op : Op)
    (h : inst.state ≠ .pending) :
    (step inst op).state = inst.state ∧ (step inst op).result = inst.result := by
  cases op with
  | opFinish v => simp [step, finish, resolveClosure, h]
  | opFail e => simp [step, fail, rejectClosure, h]
  | opCancel r => simp [step, cancel, cancelResolve, h]
  | opOnCancel a => cases a <;> simp [step, onCancel]

theorem runOps_of_terminal (inst : ActivityInstance) (ops : List Op)
    (h : inst.state ≠ .pending) :
    (runOps inst ops).state = inst.state ∧ (runOps inst ops).result = inst.result := by
  induction ops generalizing inst with
  | nil => exact ⟨rfl, rfl⟩
  | cons op rest ih =>
      have hs := step_of_terminal inst op h
      have h2 : (step inst op).state ≠ .pending := by rw [hs.1]; exact h
      have hr := ih (step inst op) h2
      exact ⟨hs.1 ▸ hr.1, hs.2 ▸ hr.2⟩

theorem step_pendingIff (inst : ActivityInstance) (op : Op)
    (h : inst.result = none ↔ inst.state = .pending) :
    (step inst op).result = none ↔ (step inst op).state = .pending := by
  by_cases hp : inst.state = .pending
  · cases op with
    | opFinish v => simp [step, finish, resolveClosure, teardown, hp]
    | opFail e => simp [step, fail, rejectClosure, teardown, hp]
    | opCancel r => simp [step, cancel, cancelResolve, teardown, hp]
    | opOnCancel a => cases a <;> simpa [step, onCancel] using h
  · have hs := step_of_terminal inst op hp
    rw [hs.1, hs.2]; exact h

theorem runOps_pendingIff (inst : ActivityInstance) (ops : List Op)
    (h : inst.result = none ↔ inst.state = .pending) :
    (runOps inst ops).result = none ↔ (runOps inst ops).state = .pending := by
  induction ops generalizing inst with
  | nil => exact h
  | cons op rest ih => exact ih (step inst op) (step_pendingIff inst op h)

theorem runHandlersUntilThrow_noThrow (hs : List Handler) (r : JSValue)
    (h : ∀ hd ∈ hs, hd.throws = false) :
    runHandlersUntilThrow hs r = hs.map fun hd => .handlerRun hd.hid r := by
  induction hs with
  | nil => rfl
  | cons hd rest ih =>
      have h1 : hd.throws = false := h hd (by simp)
      have h2 : ∀ x ∈ rest, x.throws = false := fun x hx => h x (by simp [hx])
      simp [runHandlersUntilThrow, h1, ih h2]

theorem finish_of_pending (inst : ActivityInstance) (v : JSValue)
    (h : inst.state = .pending) :
    finish inst v =
      { inst with state := .completed, onCancelHandlers := [], attached := false,
                  result := some (.resolved (.completedR v)),
                  log := inst.log ++ destroyEvents inst.exports
                           ++ [.settledEv (.resolved (.completedR v))] } := by
  simp [finish, resolveClosure, teardown, h, List.append_assoc]

theorem fail_of_pending (inst : ActivityInstance) (e : JSValue)
    (h : inst.state = .pending) :
    fail inst e =
      { inst with state := .failed, onCancelHandlers := [], attached := false,
                  result := some (.rejected (.failedR (normalizeError e))),
                  log := inst.log ++ destroyEvents inst.exports
                           ++ [.settledEv (.rejected (.failedR (normalizeError e)))] } := by
  simp [fail, rejectClosure, teardown, h, List.append_assoc]

theorem cancel_of_pending (inst : ActivityInstance) (r : JSValue)
    (h : inst.state = .pending) :
    cancel inst r =
      { inst with state := .cancelled, onCancelHandlers := [], attached := false,
                  result := some (.resolved (.cancelledR
                    (if truthy r then r else .vStr "cancelled"))),
                  log := inst.log ++ runHandlersUntilThrow inst.onCancelHandlers r
                           ++ destroyEvents inst.exports
                           ++ [.settledEv (.resolved (.cancelledR
                                (if truthy r then r else .vStr "cancelled")))] } := by
  simp [cancel, cancelResolve, teardown, h, List.append_assoc]

theorem finish_of_terminal (inst : ActivityInstance) (v : JSValue)
    (h : inst.state ≠ .pending) : finish inst v = inst := by
  simp [finish, resolveClosure, h]

theorem fail_of_terminal (inst : ActivityInstance) (e : JSValue)
    (h : inst.state ≠ .pending) : fail inst e = inst := by
  simp [fail, rejectClosure, h]

theorem cancel_of_terminal_noHandlers (inst : ActivityInstance) (r : JSValue)
    (h : inst.state ≠ .pending) (hh : inst.onCancelHandlers = []) :
    cancel inst r = inst := by
  obtain ⟨st, hs, ex, res, pa, att, lg⟩ := inst
  have hh2 : hs = [] := hh
  have h2 : st ≠ .pending := h
  subst hh2
  simp [cancel, runHandlersUntilThrow, cancelResolve, h2]

theorem countDestroy_append (a b : List Event) :
    countDestroy (a ++ b) = countDestroy a + countDestroy b := by
  simp [countDestroy, List.filter_append]

theorem countDestroy_handlers (hs : List Handler) (r : JSValue) :
    countDestroy (runHandlersUntilThrow hs r) = 0 := by
  induction hs with
  | nil => rfl
  | cons hd rest ih =>
      by_cases ht : hd.throws
      · simp [runHandlersUntilThrow, countDestroy, ht]
      · simp [runHandlersUntilThrow, countDestroy, ht]
        simpa [countDestroy] using ih

theorem step_of_terminal_countDestroy (inst : ActivityInstance) (op : Op)
    (h : inst.state ≠ .pending) :
    countDestroy (step inst op).log = countDestroy inst.log := by
  cases op with
  | opFinish v => rw [show step inst (.opFinish v) = finish inst v from rfl,
      finish_of_terminal inst v h]
  | opFail e => rw [show step inst (.opFail e) = fail inst e from rfl,
      fail_of_terminal inst e h]
  | opCancel r =>
      simp [step, cancel, cancelResolve, h, countDestroy_append, countDestroy_handlers]
  | opOnCancel a => cases a <;> simp [step, onCancel]

theorem runOps_of_terminal_countDestroy (inst : ActivityInstance) (ops : List Op)
    (h : inst.state ≠ .pending) :
    countDestroy (runOps inst ops).log = countDestroy inst.log := by
  induction ops generalizing inst with
  | nil => rfl
  | cons op rest ih =>
      have hs := (step_of_terminal inst op h).1
      have h2 : (step inst op).state ≠ .pending := by rw [hs]; exact h
      show countDestroy (runOps (step inst op) rest).log = countDestroy inst.log
      rw [ih _ h2, step_of_terminal_countDestroy inst op h]

theorem launch_isOk (inst : ActivityInstance) (src : String) (params : JSValue)
    (fo : FetchOutcome) (h : inst.state = .pending) :
    exceptIsOk (launch inst src params fo) = true := by
  cases fo <;> simp [launch, h, exceptIsOk]

end ActivityElement

open ActivityElement

/-- C9: re-registering an intent name overwrites the stored locator — last
write wins, and `registerIntent` is total, so no error is possible — and a
registration changes the lookup of no other name (no side effect beyond the
mapping). -/
theorem registerIntent_last_write_wins (reg : Registry) (n m : String)
    (s1 s2 : JSValue) (h : m ≠ n) :
    registryGet (registerIntent (registerIntent reg n s1) n s2) n = s2
    ∧ registryGet (registerIntent reg n s1) m = registryGet reg m := by
  constructor
  · simp [registryGet, registerIntent]
  · simp [registryGet, registerIntent, h]

theorem registerIntent_last_write_wins_witness :
    ("y" : String) ≠ "x"
    ∧ registryGet (registerIntent (registerIntent Registry.empty "x" (.vStr "a"))
        "x" (.vStr "b")) "x" = .vStr "b"
    ∧ registryGet (registerIntent Registry.empty "x" (.vStr "a")) "y"
        = registryGet Registry.empty "y" :=
  ⟨by decide,
    (registerIntent_last_write_wins Registry.empty "x" "y" (.vStr "a") (.vStr "b")
      (by decide)).1,
    (registerIntent_last_write_wins Registry.empty "x" "y" (.vStr "a") (.vStr "b")
      (by decide)).2⟩

/-- C10: a name registered with a falsy locator (the empty string included)
behaves under `intentStart` exactly like a name that was never registered:
the lookup guard `if (!remoteSrc)` throws the `No activity registered`
error synchronously either way. -/
theorem falsy_locator_treated_as_absent (reg : Registry) (n : String)
    (v p : JSValue) (fo : FetchOutcome)
    (hv : truthy v = false) (h : registryGet reg n = .vUndefined) :
    intentStart (registerIntent reg n v) n p fo
        = .error ("No activity registered for intent: " ++ n)
    ∧ intentStart reg n p fo
        = .error ("No activity registered for intent: " ++ n)
    ∧ intentStart (registerIntent reg n v) n p fo = intentStart reg n p fo := by
  have h1 : intentStartGuard (registerIntent reg n v) n
      = .error ("No activity registered for intent: " ++ n) := by
    simp [intentStartGuard, registryGet, registerIntent, hv]
  have h2 : intentStartGuard reg n
      = .error ("No activity registered for intent: " ++ n) := by
    simp [intentStartGuard, registryGet] at h ⊢
    simp [h, truthy]
  refine ⟨?_, ?_, ?_⟩ <;> simp [intentStart, h1, h2]

theorem falsy_locator_treated_as_absent_witness :
    truthy (.vStr "") = false
    ∧ registryGet Registry.empty "gone" = .vUndefined
    ∧ intentStart (registerIntent Registry.empty "gone" (.vStr "")) "gone"
        .vUndefined (.fetchNetworkError .vNull)
        = .error ("No activity registered for intent: " ++ "gone") :=
  ⟨by decide, by decide,
    (falsy_locator_treated_as_absent Registry.empty "gone" (.vStr "") .vUndefined
      (.fetchNetworkError .vNull) (by decide) (by decide)).1⟩

/-- C1 (amended): `state` starts at `pending` and transitions at most once,
to exactly one of `completed` / `cancelled` / `failed`: the first call to
any of `finish` / `fail` / `cancel` wins, and no later call sequence ever
changes the state or the settled result.  When the terminal transition has
left the handler list empty (as the teardown of every transition does), every
later terminal-trigger call is the identity on the instance.  (The original
stronger no-observable-effect wording of the claim fails because `onCancel` performs no
state check — see the counterexample.) -/
theorem state_transitions_at_most_once (inst : ActivityInstance)
    (v e r : JSValue) (ops : List Op) (h : inst.state = .pending) :
    ActivityInstance.init.state = .pending
    ∧ (finish inst v).state = .completed
    ∧ (fail inst e).state = .failed
    ∧ (cancel inst r).state = .cancelled
    ∧ (runOps (finish inst v) ops).state = .completed
    ∧ (runOps (finish inst v) ops).result = (finish inst v).result
    ∧ (runOps (fail inst e) ops).state = .failed
    ∧ (runOps (fail inst e) ops).result = (fail inst e).result
    ∧ (runOps (cancel inst r) ops).state = .cancelled
    ∧ (runOps (cancel inst r) ops).result = (cancel inst r).result
    ∧ (∀ v2 e2 r2 : JSValue,
          finish (finish inst v) v2 = finish inst v
        ∧ fail (finish inst v) e2 = finish inst v
        ∧ cancel (finish inst v) r2 = finish inst v
        ∧ finish (fail inst e) v2 = fail inst e
        ∧ fail (fail inst e) e2 = fail inst e
        ∧ cancel (fail inst e) r2 = fail inst e
        ∧ finish (cancel inst r) v2 = cancel inst r
        ∧ fail (cancel inst r) e2 = cancel inst r
        ∧ cancel (cancel inst r) r2 = cancel inst r) := by
  have hfs : (finish inst v).state = .completed := by rw [finish_of_pending inst v h]
  have hes : (fail inst e).state = .failed := by rw [fail_of_pending inst e h]
  have hcs : (cancel inst r).state = .cancelled := by rw [cancel_of_pending inst r h]
  have hfn : (finish inst v).state ≠ .pending := by rw [hfs]; decide
  have hen : (fail inst e).state ≠ .pending := by rw [hes]; decide
  have hcn : (cancel inst r).state ≠ .pending := by rw [hcs]; decide
  have hfh : (finish inst v).onCancelHandlers = [] := by rw [finish_of_pending inst v h]
  have heh : (fail inst e).onCancelHandlers = [] := by rw [fail_of_pending inst e h]
  have hch : (cancel inst r).onCancelHandlers = [] := by rw [cancel_of_pending inst r h]
  refine ⟨rfl, hfs, hes, hcs, ?_, ?_, ?_, ?_, ?_, ?_, ?_⟩
  · rw [(runOps_of_terminal _ ops hfn).1, hfs]
  · exact (runOps_of_terminal _ ops hfn).2
  · rw [(runOps_of_terminal _ ops hen).1, hes]
  · exact (runOps_of_terminal _ ops hen).2
  · rw [(runOps_of_terminal _ ops hcn).1, hcs]
  · exact (runOps_of_terminal _ ops hcn).2
  · intro v2 e2 r2
    exact ⟨finish_of_terminal _ _ hfn, fail_of_terminal _ _ hfn,
      cancel_of_terminal_noHandlers _ _ hfn hfh,
      finish_of_terminal _ _ hen, fail_of_terminal _ _ hen,
      cancel_of_terminal_noHandlers _ _ hen heh,
      finish_of_terminal _ _ hcn, fail_of_terminal _ _ hcn,
      cancel_of_terminal_noHandlers _ _ hcn hch⟩

theorem state_transitions_at_most_once_witness :
    ActivityInstance.init.state = .pending
    ∧ (finish ActivityInstance.init (.vNum 1)).state = .completed :=
  ⟨by decide,
    (state_transitions_at_most_once ActivityInstance.init (.vNum 1) .vNull .vNull []
      (by decide)).2.1⟩

/-- C1 counterexample: after `finish` has already won, registering a handler
(`onCancel` checks no state) and then calling `cancel` invokes that handler
— an observable effect of a second terminal-trigger call — even though the
state and settled result do not change.  This refutes the claim that every
later call to a terminal trigger is a silent no-op with no observable
effect. -/
theorem later_cancel_call_has_observable_effect :
    (cancel (onCancel (finish ActivityInstance.init (.vNum 1)) (.cb ⟨7, false⟩))
      .vUndefined).state = .completed
    ∧ Event.handlerRun 7 .vUndefined
        ∈ (cancel (onCancel (finish ActivityInstance.init (.vNum 1)) (.cb ⟨7, false⟩))
            .vUndefined).log := by
  decide

/-- C2 (amended): the result future is unsettled exactly while the state is
`pending`; the first `finish(v)` resolves it with `(status completed, v)`;
the first `fail(e)` rejects it with `(status failed, e)` where a non-`Error`
input is normalized into an `Error` value (an `Error` input is kept as is);
the first `cancel(r)` resolves — not rejects — it with
`(status cancelled, r)` when `r` is truthy, and with reason `cancelled`
when `r` is falsy (`reason || cancelled`). -/
theorem result_settlement_by_first_trigger (ops : List Op)
    (inst : ActivityInstance) (v e r : JSValue) (h : inst.state = .pending) :
    ((runOps ActivityInstance.init ops).result = none
        ↔ (runOps ActivityInstance.init ops).state = .pending)
    ∧ (finish inst v).result = some (.resolved (.completedR v))
    ∧ (fail inst e).result = some (.rejected (.failedR (normalizeError e)))
    ∧ (instanceofError e = true → normalizeError e = e)
    ∧ (cancel inst r).result
        = some (.resolved (.cancelledR (if truthy r then r else .vStr "cancelled"))) := by
  refine ⟨runOps_pendingIff _ _ (by decide), ?_, ?_, ?_, ?_⟩
  · rw [finish_of_pending inst v h]
  · rw [fail_of_pending inst e h]
  · intro hi; simp [normalizeError, hi]
  · rw [cancel_of_pending inst r h]

theorem result_settlement_by_first_trigger_witness :
    ActivityInstance.init.state = .pending
    ∧ (finish ActivityInstance.init (.vNum 42)).result
        = some (.resolved (.completedR (.vNum 42))) :=
  ⟨by decide,
    (result_settlement_by_first_trigger [] ActivityInstance.init (.vNum 42) .vNull
      .vNull (by decide)).2.1⟩

/-- C2 counterexample: `cancel("")` as the first terminal call settles the
future with reason `cancelled`, not with the supplied reason `""` — the
source applies `reason || cancelled`, so any falsy reason is replaced,
refuting the claim that a first `cancel(r)` always resolves with reason
`r`. -/
theorem cancel_empty_reason_replaced :
    (cancel ActivityInstance.init (.vStr "")).result
        = some (.resolved (.cancelledR (.vStr "cancelled")))
    ∧ (JSValue.vStr "cancelled") ≠ (.vStr "") := by
  decide

/-- C3 (amended): while the instance is pending, `cancel(r)` invokes the
registered handlers in registration order, each at most once, strictly
before the result future settles — but only up to and including the first
handler that throws: the single `try` wrapped around the whole `forEach`
swallows the exception and aborts the remaining handlers, so there is no
per-handler fault isolation.  When no registered handler throws, every
handler is invoked exactly once, in registration order. -/
theorem cancel_runs_handlers_in_order (inst : ActivityInstance) (r : JSValue)
    (h : inst.state = .pending) :
    (cancel inst r).log
        = inst.log ++ runHandlersUntilThrow inst.onCancelHandlers r
            ++ destroyEvents inst.exports
            ++ [.settledEv (.resolved (.cancelledR
                  (if truthy r then r else .vStr "cancelled")))]
    ∧ ((∀ hd ∈ inst.onCancelHandlers, hd.throws = false) →
        runHandlersUntilThrow inst.onCancelHandlers r
            = inst.onCancelHandlers.map fun hd => .handlerRun hd.hid r) := by
  refine ⟨?_, runHandlersUntilThrow_noThrow _ _⟩
  rw [cancel_of_pending inst r h]

theorem cancel_runs_handlers_in_order_witness :
    (onCancel (onCancel ActivityInstance.init (.cb ⟨0, false⟩)) (.cb ⟨1, false⟩)).state
        = .pending
    ∧ (cancel (onCancel (onCancel ActivityInstance.init (.cb ⟨0, false⟩))
          (.cb ⟨1, false⟩)) (.vStr "stop")).log
        = [.handlerRun 0 (.vStr "stop"), .handlerRun 1 (.vStr "stop"),
           .settledEv (.resolved (.cancelledR (.vStr "stop")))] :=
  ⟨by decide,
    (cancel_runs_handlers_in_order
      (onCancel (onCancel ActivityInstance.init (.cb ⟨0, false⟩)) (.cb ⟨1, false⟩))
      (.vStr "stop") (by decide)).1⟩

/-- C3 counterexample: with handlers `[h0 (throws), h1]` registered in that
order, `cancel` invokes `h0` but never invokes `h1`: the single `try` around
the `forEach` aborts the loop at the first throwing handler.  This refutes
per-handler fault isolation — a throwing handler does prevent the invocation
of later handlers. -/
theorem throwing_handler_suppresses_later_handlers :
    (cancel (onCancel (onCancel ActivityInstance.init (.cb ⟨0, true⟩))
        (.cb ⟨1, false⟩)) (.vStr "stop")).state = .cancelled
    ∧ Event.handlerRun 0 (.vStr "stop")
        ∈ (cancel (onCancel (onCancel ActivityInstance.init (.cb ⟨0, true⟩))
            (.cb ⟨1, false⟩)) (.vStr "stop")).log
    ∧ Event.handlerRun 1 (.vStr "stop")
        ∉ (cancel (onCancel (onCancel ActivityInstance.init (.cb ⟨0, true⟩))
            (.cb ⟨1, false⟩)) (.vStr "stop")).log := by
  decide

/-- C7 (amended): `onCancel` appends a callable handler to `cancelHandlers`
at any time — it performs no state check, so a handler can be added even
after the terminal transition — and ignores non-callable arguments.  While
pending, every terminal transition clears the list; the Cancelled transition
first drains it (handlers invoked in registration order up to the first one
that throws), while the Completed and Failed transitions clear it without
invoking anything: their log extensions consist of `onDestroy`/settlement
events only. -/
theorem cancelHandlers_append_and_drain (inst inst2 : ActivityInstance)
    (hd : Handler) (v e r x : JSValue) (h : inst.state = .pending) :
    (onCancel inst2 (.cb hd)).onCancelHandlers = inst2.onCancelHandlers ++ [hd]
    ∧ onCancel inst2 (.notCb x) = inst2
    ∧ (finish inst v).onCancelHandlers = []
    ∧ (fail inst e).onCancelHandlers = []
    ∧ (cancel inst r).onCancelHandlers = []
    ∧ (finish inst v).log = inst.log ++ destroyEvents inst.exports
        ++ [.settledEv (.resolved (.completedR v))]
    ∧ (fail inst e).log = inst.log ++ destroyEvents inst.exports
        ++ [.settledEv (.rejected (.failedR (normalizeError e)))]
    ∧ (cancel inst r).log = inst.log ++ runHandlersUntilThrow inst.onCancelHandlers r
        ++ destroyEvents inst.exports
        ++ [.settledEv (.resolved (.cancelledR
              (if truthy r then r else .vStr "cancelled")))]
    ∧ (∀ ex2 : Option Exports,
        destroyEvents ex2 = [] ∨ destroyEvents ex2 = [.destroyRun]) := by
  refine ⟨rfl, rfl, ?_, ?_, ?_, ?_, ?_, ?_, ?_⟩
  · rw [finish_of_pending inst v h]
  · rw [fail_of_pending inst e h]
  · rw [cancel_of_pending inst r h]
  · rw [finish_of_pending inst v h]
  · rw [fail_of_pending inst e h]
  · rw [cancel_of_pending inst r h]
  · intro ex2
    match ex2 with
    | none => exact Or.inl rfl
    | some ex =>
        by_cases hb : ex.hasOnDestroy
        · exact Or.inr (by simp [destroyEvents, hb])
        · exact Or.inl (by simp [destroyEvents, hb])

theorem cancelHandlers_append_and_drain_witness :
    ActivityInstance.init.state = .pending
    ∧ (onCancel ActivityInstance.init (.cb ⟨5, false⟩)).onCancelHandlers
        = [⟨5, false⟩] :=
  ⟨by decide,
    (cancelHandlers_append_and_drain ActivityInstance.init ActivityInstance.init
      ⟨5, false⟩ .vNull .vNull .vNull .vNull (by decide)).1⟩

/-- C7 counterexample: `onCancel` performs no state check, so a handler is
appended to `cancelHandlers` even after the terminal transition (here after
`finish` completed the instance), refuting the claim that the list is only
ever appended to while the instance is pending. -/
theorem handler_appended_after_terminal :
    (finish ActivityInstance.init (.vNum 0)).state = .completed
    ∧ (onCancel (finish ActivityInstance.init (.vNum 0))
        (.cb ⟨3, false⟩)).onCancelHandlers = [⟨3, false⟩] := by
  decide

/-- C8: on every terminal transition of a pending instance whose export
table defines `onDestroy`, the hook runs exactly once, after the state is
set and before the settlement of the result future is recorded — hence
before any external observer of the promise sees the outcome.  The theorem
holds for any value of `ex.onDestroyThrows`, so a hook that throws changes
nothing: `_safeCall` discards the exception and the already-decided outcome
stands.  Teardown then runs unconditionally — the element is detached and
`cancelHandlers` is cleared — and no later call sequence ever runs the hook
again. -/
theorem onDestroy_once_per_transition (inst : ActivityInstance) (ex : Exports)
    (v e r : JSValue) (ops : List Op) (h : inst.state = .pending)
    (hex : inst.exports = some ex) (hd : ex.hasOnDestroy = true) :
    (finish inst v).log
        = inst.log ++ [.destroyRun, .settledEv (.resolved (.completedR v))]
    ∧ (fail inst e).log
        = inst.log ++ [.destroyRun, .settledEv (.rejected (.failedR (normalizeError e)))]
    ∧ (cancel inst r).log
        = inst.log ++ runHandlersUntilThrow inst.onCancelHandlers r
            ++ [.destroyRun, .settledEv (.resolved (.cancelledR
                  (if truthy r then r else .vStr "cancelled")))]
    ∧ countDestroy (finish inst v).log = countDestroy inst.log + 1
    ∧ countDestroy (fail inst e).log = countDestroy inst.log + 1
    ∧ countDestroy (cancel inst r).log = countDestroy inst.log + 1
    ∧ countDestroy (runOps (finish inst v) ops).log = countDestroy (finish inst v).log
    ∧ countDestroy (runOps (fail inst e) ops).log = countDestroy (fail inst e).log
    ∧ countDestroy (runOps (cancel inst r) ops).log = countDestroy (cancel inst r).log
    ∧ (finish inst v).attached = false ∧ (finish inst v).onCancelHandlers = []
    ∧ (fail inst e).attached = false ∧ (fail inst e).onCancelHandlers = []
    ∧ (cancel inst r).attached = false ∧ (cancel inst r).onCancelHandlers = [] := by
  have hde : destroyEvents inst.exports = [.destroyRun] := by
    rw [hex]; simp [destroyEvents, hd]
  have hfl : (finish inst v).log
      = inst.log ++ [.destroyRun, .settledEv (.resolved (.completedR v))] := by
    rw [finish_of_pending inst v h]
    simp [hde, List.append_assoc]
  have hel : (fail inst e).log
      = inst.log ++ [.destroyRun, .settledEv (.rejected (.failedR (normalizeError e)))] := by
    rw [fail_of_pending inst e h]
    simp [hde, List.append_assoc]
  have hcl : (cancel inst r).log
      = inst.log ++ runHandlersUntilThrow inst.onCancelHandlers r
          ++ [.destroyRun, .settledEv (.resolved (.cancelledR
                (if truthy r then r else .vStr "cancelled")))] := by
    rw [cancel_of_pending inst r h]
    simp [hde, List.append_assoc]
  have hfs : (finish inst v).state = .completed := by rw [finish_of_pending inst v h]
  have hes : (fail inst e).state = .failed := by rw [fail_of_pending inst e h]
  have hcs : (cancel inst r).state = .cancelled := by rw [cancel_of_pending inst r h]
  have hfn : (finish inst v).state ≠ .pending := by rw [hfs]; decide
  have hen : (fail inst e).state ≠ .pending := by rw [hes]; decide
  have hcn : (cancel inst r).state ≠ .pending := by rw [hcs]; decide
  refine ⟨hfl, hel, hcl, ?_, ?_, ?_,
    runOps_of_terminal_countDestroy _ ops hfn,
    runOps_of_terminal_countDestroy _ ops hen,
    runOps_of_terminal_countDestroy _ ops hcn, ?_, ?_, ?_, ?_, ?_, ?_⟩
  · rw [hfl, countDestroy_append]; simp [countDestroy]
  · rw [hel, countDestroy_append]; simp [countDestroy]
  · rw [hcl, countDestroy_append, countDestroy_append, countDestroy_handlers]
    simp [countDestroy]
  · rw [finish_of_pending inst v h]
  · rw [finish_of_pending inst v h]
  · rw [fail_of_pending inst e h]
  · rw [fail_of_pending inst e h]
  · rw [cancel_of_pending inst r h]
  · rw [cancel_of_pending inst r h]

theorem onDestroy_once_per_transition_witness :
    ({ ActivityInstance.init with
        exports := some ⟨none, true, true⟩ } : ActivityInstance).state = .pending
    ∧ ({ ActivityInstance.init with
        exports := some ⟨none, true, true⟩ } : ActivityInstance).exports
          = some ⟨none, true, true⟩
    ∧ (⟨none, true, true⟩ : Exports).hasOnDestroy = true
    ∧ (finish { ActivityInstance.init with
          exports := some ⟨none, true, true⟩ } (.vNum 5)).log
        = [.destroyRun, .settledEv (.resolved (.completedR (.vNum 5)))] :=
  ⟨by decide, by decide, by decide,
    (onDestroy_once_per_transition
      { ActivityInstance.init with exports := some ⟨none, true, true⟩ }
      ⟨none, true, true⟩ (.vNum 5) .vNull .vNull [] (by decide) (by decide)
      (by decide)).1⟩

/-- C4 (amended): when the content loader fails — the fetch rejects, or the
response is not ok — the instance transitions to `failed` through the normal
`fail` path and the result future carries the rejection; the promise
returned by `_launch` itself still resolves rather than rejects, but it
resolves with `undefined` (the value returned by the `catch` handler), not
with a launch handle. -/
theorem loader_failure_resolves_undefined (inst : ActivityInstance)
    (src statusText : String) (status : Nat) (params e : JSValue)
    (h : inst.state = .pending) :
    launch inst src params (.fetchHttpError status statusText)
        = .ok (.undefinedVal, fail { inst with params := params }
            (.vError ("Fetch: " ++ src ++ ": " ++ toString status ++ " " ++ statusText)))
    ∧ launch inst src params (.fetchNetworkError e)
        = .ok (.undefinedVal, fail { inst with params := params } e)
    ∧ (fail { inst with params := params } e).state = .failed
    ∧ (fail { inst with params := params } e).result
        = some (.rejected (.failedR (normalizeError e))) := by
  have hp : ({ inst with params := params } : ActivityInstance).state = .pending := h
  refine ⟨?_, ?_, ?_, ?_⟩
  · simp [launch, h]
  · simp [launch, h]
  · rw [fail_of_pending _ _ hp]
  · rw [fail_of_pending _ _ hp]

theorem loader_failure_resolves_undefined_witness :
    ActivityInstance.init.state = .pending
    ∧ launch ActivityInstance.init "u" (.vStr "p") (.fetchNetworkError (.vError "down"))
        = .ok (.undefinedVal,
            fail { ActivityInstance.init with params := .vStr "p" } (.vError "down")) :=
  ⟨by decide,
    (loader_failure_resolves_undefined ActivityInstance.init "u" "x" 0 (.vStr "p")
      (.vError "down") (by decide)).2.1⟩

/-- C4 counterexample: at a concrete failing fetch (status 404) the promise
returned by `_launch` resolves with `undefined` — the value returned by the `catch`
handler — and not with a launch handle, refuting the claim that the
promise of the launch call resolves to an object exposing
element/result/cancel/state. -/
theorem launch_on_fetch_failure_not_a_handle :
    launch ActivityInstance.init "u" .vUndefined (.fetchHttpError 404 "Not Found")
        = .ok (.undefinedVal,
            { state := .failed, onCancelHandlers := [], exports := none,
              result := some (.rejected (.failedR (.vError "Fetch: u: 404 Not Found"))),
              params := .vUndefined, attached := false,
              log := [.settledEv (.rejected (.failedR
                (.vError "Fetch: u: 404 Not Found")))] })
    ∧ (LaunchOutcome.undefinedVal ≠ LaunchOutcome.handle) :=
  ⟨rfl, by decide⟩

/-- C5: execution-pipeline errors are contained.  A compilation failure
makes the outer `catch` of `_executeInClosure` call `this.fail(error)` — the
instance transitions to `failed`, the result future rejects with
`(status failed, error)` — and leaves the empty export table `{}`; a
synchronous top-level runtime throw is caught by the inner
`try` of the generated code, which reports it through the `fail` channel of
the capability object the
same way; a retrieval failure likewise ends in `fail`.  In every case
`_launch` returns without a synchronous exception (the last conjunct
quantifies over every fetch outcome), so no such error escapes the
loading/execution pipeline. -/
theorem execution_errors_contained (inst : ActivityInstance) (src : String)
    (params e : JSValue) (ex : Exports) (fo : FetchOutcome)
    (h : inst.state = .pending) (hoc : ex.onCreate = none) :
    launch inst src params (.fetchOk (.sbCompileError e))
        = .ok (.handle, { fail { inst with params := params } e with
            exports := some Exports.empty })
    ∧ ({ fail { inst with params := params } e with
          exports := some Exports.empty } : ActivityInstance).state = .failed
    ∧ ({ fail { inst with params := params } e with
          exports := some Exports.empty } : ActivityInstance).result
        = some (.rejected (.failedR (normalizeError e)))
    ∧ launch inst src params (.fetchOk (.sbRuntimeThrow ex e))
        = .ok (.handle, { fail { inst with params := params } e with
            exports := some ex })
    ∧ launch inst src params (.fetchNetworkError e)
        = .ok (.undefinedVal, fail { inst with params := params } e)
    ∧ exceptIsOk (launch inst src params fo) = true := by
  have hp : ({ inst with params := params } : ActivityInstance).state = .pending := h
  refine ⟨?_, ?_, ?_, ?_, ?_, launch_isOk inst src params fo h⟩
  · simp [launch, h, executeInClosure, launchAfterExports, Exports.empty]
  · rw [fail_of_pending _ _ hp]
  · rw [fail_of_pending _ _ hp]
  · simp [launch, h, executeInClosure, launchAfterExports, hoc]
  · simp [launch, h]

theorem execution_errors_contained_witness :
    ActivityInstance.init.state = .pending
    ∧ Exports.empty.onCreate = none
    ∧ launch ActivityInstance.init "u" .vUndefined
        (.fetchOk (.sbCompileError (.vError "bad syntax")))
      = .ok (.handle, { fail { ActivityInstance.init with params := .vUndefined }
          (.vError "bad syntax") with exports := some Exports.empty }) :=
  ⟨by decide, by decide,
    (execution_errors_contained ActivityInstance.init "u" .vUndefined
      (.vError "bad syntax") Exports.empty (.fetchOk (.sbOk Exports.empty))
      (by decide) rfl).1⟩

/-- C6 (amended): the synchronous `Activity already launched or finished`
error is raised exactly when the state of the instance is not `pending`.  The
guard checks only the state — launching does not itself mark an instance as
launched — so a relaunch attempt on an instance that has already been
launched but is still pending proceeds without the error. -/
theorem alreadyStarted_iff_not_pending (inst : ActivityInstance) (src : String)
    (params : JSValue) (fo : FetchOutcome) :
    launch inst src params fo = .error "Activity already launched or finished"
      ↔ inst.state ≠ .pending := by
  by_cases hp : inst.state = .pending
  · have hok := launch_isOk inst src params fo hp
    constructor
    · intro hl; rw [hl] at hok; exact absurd hok (by simp [exceptIsOk])
    · intro hn; exact absurd hp hn
  · simp [launch, hp]

/-- C6 counterexample: an instance that has already been launched — the
first `_launch` call returned the control object — but is still `pending`
passes the state guard, so a second `_launch` call on it raises no
synchronous `AlreadyStarted` error (the probe evaluates to `true`).  This
refutes the claim that every relaunch attempt on an already-launched
instance fails synchronously. -/
theorem relaunch_while_pending_not_rejected : relaunchProbe = true := by
  decide
